import Mathlib

/-!
Shallow embedding of the maruthuvam-ai persistence core: the two database
backends (`backend/database/sqlite_manager.py`, `backend/database/postgres_manager.py`),
the backend selector (`backend/database/config.py`), the domain services
(`backend/services/patient_service.py`, `backend/services/medical_records_service.py`,
`backend/services/admin_service.py`), the request-model validators
(`backend/models/patient_models.py`) and the relevant router handlers
(`backend/routers/patient_router.py`).

Database tables are modelled as lists of rows; SQL statements are modelled by
their row-level semantics.  Low-level I/O failure inside an operation is
modelled by an injected `fail : Bool` argument standing for "the underlying
cursor/connection call raised"; each operation's `try/except` structure then
determines whether the failure is converted to the interface's failure value
or re-raised (`Except.error`).  Timestamps and generated UUIDs are passed in
as explicit arguments.  Rational numbers stand in for Python floats: the only
float operations the modelled code performs are order comparisons, which are
exact.
-/

deriving instance DecidableEq for Except

namespace Maruthuvam

/-! ### String helpers (kernel-reducible stand-ins for Python str methods) -/

/-- ASCII lowercasing, standing in for Python `str.lower` (sqlite `LIKE` is
likewise ASCII-case-insensitive). -/
def lowerStr (s : String) : String :=
  String.mk (s.toList.map Char.toLower)

/-- Whitespace test used by Python `str.strip` (ASCII subset). -/
def isSpaceChar (c : Char) : Bool :=
  c == ' ' || c == '\t' || c == '\n' || c == '\r'

/-- Python `str.strip`: remove leading and trailing whitespace. -/
def stripStr (s : String) : String :=
  String.mk (((s.toList.dropWhile isSpaceChar).reverse.dropWhile isSpaceChar).reverse)

/-- Does the text start with the pattern? -/
def leadsWith : List Char → List Char → Bool
  | [], _ => true
  | _ :: _, [] => false
  | a :: ps, b :: ls => a == b && leadsWith ps ls

/-- Does the text contain the pattern as a contiguous run? -/
def hasSub (pat : List Char) : List Char → Bool
  | [] => pat.isEmpty
  | c :: rest => leadsWith pat (c :: rest) || hasSub pat rest

/-- Case-insensitive substring containment: the semantics of
`column LIKE '%q%'` in sqlite and `column ILIKE '%q%'` in postgres for a
query with no wildcard metacharacters of its own. -/
def containsCI (hay q : String) : Bool :=
  hasSub (q.toList.map Char.toLower) (hay.toList.map Char.toLower)

/-! ### json.dumps / json.loads for lists of strings

The code serializes list-valued fields with `json.dumps` and (in the sqlite
backend only) parses them back with `json.loads`.  The values this program
serializes are always lists of plain strings, so the model implements that
fragment: encoding escapes quote and backslash, and the parser accepts
exactly JSON arrays of string literals. -/

def jsonEscapeChar (c : Char) : String :=
  if c = '"' then "\\\"" else if c = '\\' then "\\\\" else String.singleton c

def jsonEncodeString (s : String) : String :=
  "\"" ++ String.join (s.toList.map jsonEscapeChar) ++ "\""

/-- Model of `json.dumps` of a list of strings (default separators: comma-space). -/
def jsonDumps (l : List String) : String :=
  "[" ++ String.intercalate ", " (l.map jsonEncodeString) ++ "]"

/-- Parse the body of a JSON string literal after its opening quote, with
fuel for termination; returns the decoded characters and the rest. -/
def parseStringBody (fuel : Nat) (cs : List Char) : Option (List Char × List Char) :=
  match fuel, cs with
  | 0, _ => none
  | _, [] => none
  | fuel + 1, c :: rest =>
    if c = '"' then some ([], rest)
    else if c = '\\' then
      match rest with
      | [] => none
      | e :: rest2 =>
        if e = '"' || e = '\\' then
          match parseStringBody fuel rest2 with
          | some (body, rem) => some (e :: body, rem)
          | none => none
        else none
    else
      match parseStringBody fuel rest with
      | some (body, rem) => some (c :: body, rem)
      | none => none

/-- Drop leading JSON whitespace. -/
def skipSpaces : List Char → List Char
  | c :: rest => if c == ' ' then skipSpaces rest else c :: rest
  | [] => []

/-- Parse the items of a JSON array of strings after the opening bracket
(first item expected next). -/
def parseArrayItems (fuel : Nat) (cs : List Char) (acc : List String) :
    Option (List String) :=
  match fuel with
  | 0 => none
  | fuel + 1 =>
    match cs with
    | '"' :: rest =>
      match parseStringBody (rest.length + 1) rest with
      | none => none
      | some (body, rem) =>
        let acc2 := acc ++ [String.mk body]
        match skipSpaces rem with
        | ',' :: rest2 => parseArrayItems fuel (skipSpaces rest2) acc2
        | ']' :: rest2 => if skipSpaces rest2 = [] then some acc2 else none
        | _ => none
    | _ => none

/-- Model of `json.loads` restricted to JSON arrays of string literals; `none` models
the call raising (or the decoded value not being a list of strings, which the
stored data never is). -/
def jsonLoadsList (s : String) : Option (List String) :=
  match skipSpaces s.toList with
  | '[' :: rest =>
    match skipSpaces rest with
    | ']' :: rem => if skipSpaces rem = [] then some [] else none
    | cs => parseArrayItems (s.length + 1) cs []
  | _ => none

/-- Model of `json.loads(text) if text else []`: the sqlite read-side normalization of
a serialized list column. -/
def decodeListField (s : String) : Option (List String) :=
  if s == "" then some [] else jsonLoadsList s

/-! ### Data model -/

/-- The shape of a JSON-ish column value as the Python caller observes it
after a read: a raw text value, or a decoded list of strings. -/
inductive Value where
  | str : String → Value
  | list : List String → Value
deriving DecidableEq, Repr

/-- A row of the `patients` table.  `email` and `name` are NOT NULL;
`allergies` holds the `json.dumps` text (sqlite TEXT / postgres JSONB, both
written from the same dump). -/
structure PatientRow where
  id : String
  email : String
  name : String
  phone : Option String
  date_of_birth : Option String
  gender : Option String
  address : Option String
  emergency_contact : Option String
  blood_type : Option String
  allergies : String
  created_at : String
  updated_at : String
deriving DecidableEq, Repr

/-- A row of the `medical_records` table.  `record_type` is NOT NULL; the
three list-valued fields hold `json.dumps` text. -/
structure MedicalRecordRow where
  id : String
  patient_id : String
  record_type : String
  modality : Option String
  diagnosis : Option String
  symptoms : String
  findings : Option String
  recommendations : String
  suggested_tests : String
  image_path : Option String
  confidence_score : Option ℚ
  doctor_notes : Option String
  created_at : String
  updated_at : String
deriving DecidableEq, Repr

/-- The persisted state a backend operates on (appointments are out of the
claims' scope). -/
structure DbState where
  patients : List PatientRow
  records : List MedicalRecordRow
deriving DecidableEq, Repr

/-- The `patient_data` dict: every key read through `.get` may be absent. -/
structure PatientData where
  email : Option String
  name : Option String
  phone : Option String
  date_of_birth : Option String
  gender : Option String
  address : Option String
  emergency_contact : Option String
  blood_type : Option String
  allergies : Option (List String)
deriving DecidableEq, Repr

/-- The `record_data` dict passed to the medical-record store operations. -/
structure RecordData where
  record_type : Option String
  modality : Option String
  diagnosis : Option String
  symptoms : Option (List String)
  findings : Option String
  recommendations : Option (List String)
  suggested_tests : Option (List String)
  image_path : Option String
  confidence_score : Option ℚ
  doctor_notes : Option String
deriving DecidableEq, Repr

/-- A patient as returned to callers (the dict built from a fetched row). -/
structure PatientView where
  id : String
  email : String
  name : String
  phone : Option String
  date_of_birth : Option String
  gender : Option String
  address : Option String
  emergency_contact : Option String
  blood_type : Option String
  allergies : Value
  created_at : String
  updated_at : String
deriving DecidableEq, Repr

/-- A medical record as returned to callers. -/
structure RecordView where
  id : String
  patient_id : String
  record_type : String
  modality : Option String
  diagnosis : Option String
  symptoms : Value
  findings : Option String
  recommendations : Value
  suggested_tests : Value
  image_path : Option String
  confidence_score : Option ℚ
  doctor_notes : Option String
  created_at : String
  updated_at : String
deriving DecidableEq, Repr

/-- Python truthiness of an optional string: `None` and `""` are falsy. -/
def optFalsy (o : Option String) : Bool :=
  o.getD "" == ""

/-- Model of `NULL LIKE pattern` is NULL (no match); otherwise case-insensitive
substring match. -/
def likeOpt (field : Option String) (q : String) : Bool :=
  match field with
  | none => false
  | some s => containsCI s q

/-- Insert a record before the first strictly-older entry: insertion step of
`ORDER BY created_at DESC` (ISO-8601 strings compare lexicographically). -/
def insertByCreatedDesc (r : MedicalRecordRow) :
    List MedicalRecordRow → List MedicalRecordRow
  | [] => [r]
  | x :: xs =>
    if decide (r.created_at ≥ x.created_at) then r :: x :: xs
    else x :: insertByCreatedDesc r xs

/-- Model of `ORDER BY created_at DESC` on a result set. -/
def sortByCreatedDesc (l : List MedicalRecordRow) : List MedicalRecordRow :=
  l.foldr insertByCreatedDesc []

/-- One step of `GROUP BY record_type` counting. -/
def bumpCount (t : String) : List (String × Nat) → List (String × Nat)
  | [] => [(t, 1)]
  | (k, n) :: rest => if k == t then (k, n + 1) :: rest else (k, n) :: bumpCount t rest

/-- Model of `SELECT record_type, COUNT(*) ... GROUP BY record_type`, groups listed in
first-appearance order. -/
def groupByType (l : List MedicalRecordRow) : List (String × Nat) :=
  l.foldl (fun acc r => bumpCount r.record_type acc) []

/-- The `get_patient_statistics` result dict. -/
structure Stats where
  total_records : Nat
  records_by_type : List (String × Nat)
  recent_records : Nat
  last_updated : String
deriving DecidableEq, Repr

namespace SQLiteManager

/-- Build the patient dict from a row:
`patient['allergies'] = json.loads(...) if ... else []`.  `none` models the
surrounding `except` returning `None` when `json.loads` raises. -/
def rowToPatientView (r : PatientRow) : Option PatientView :=
  match decodeListField r.allergies with
  | some l =>
    some ⟨r.id, r.email, r.name, r.phone, r.date_of_birth, r.gender, r.address,
      r.emergency_contact, r.blood_type, Value.list l, r.created_at, r.updated_at⟩
  | none => none

/-- Build the medical-record dict from a row, decoding the three serialized
list fields; `none` models `json.loads` raising. -/
def rowToRecordView (r : MedicalRecordRow) : Option RecordView :=
  match decodeListField r.symptoms, decodeListField r.recommendations,
      decodeListField r.suggested_tests with
  | some s, some rc, some t =>
    some ⟨r.id, r.patient_id, r.record_type, r.modality, r.diagnosis, Value.list s,
      r.findings, Value.list rc, Value.list t, r.image_path, r.confidence_score,
      r.doctor_notes, r.created_at, r.updated_at⟩
  | _, _, _ => none

/-- Decode a whole result set; any row failing aborts (the exception path). -/
def recordViewsAll : List MedicalRecordRow → Option (List RecordView)
  | [] => some []
  | r :: rs =>
    match rowToRecordView r, recordViewsAll rs with
    | some v, some vs => some (v :: vs)
    | _, _ => none

/-- Decode a whole patient result set; any row failing aborts. -/
def patientViewsAll : List PatientRow → Option (List PatientView)
  | [] => some []
  | r :: rs =>
    match rowToPatientView r, patientViewsAll rs with
    | some v, some vs => some (v :: vs)
    | _, _ => none

/-- Model of `SQLiteManager.create_patient`: INSERT with values taken via `.get`;
a raised error (injected failure, NULL in a NOT NULL column, UNIQUE email or
id violation) is printed and re-raised (`raise`). -/
def create_patient (fail : Bool) (st : DbState) (d : PatientData)
    (newId now : String) : DbState × Except Unit String :=
  if fail || d.email.isNone || d.name.isNone
      || st.patients.any (fun r => d.email == some r.email)
      || st.patients.any (fun r => r.id == newId) then
    (st, Except.error ())
  else
    (⟨st.patients ++ [⟨newId, d.email.getD "", d.name.getD "", d.phone,
        d.date_of_birth, d.gender, d.address, d.emergency_contact, d.blood_type,
        jsonDumps (d.allergies.getD []), now, now⟩], st.records⟩,
     Except.ok newId)

/-- Model of `SQLiteManager.get_patient`: any exception is caught and `None`
returned. -/
def get_patient (fail : Bool) (st : DbState) (pid : String) :
    Except Unit (Option PatientView) :=
  if fail then Except.ok none
  else
    match st.patients.find? (fun r => r.id == pid) with
    | none => Except.ok none
    | some r => Except.ok (rowToPatientView r)

/-- Model of `SQLiteManager.get_patient_by_email`: as `get_patient`, keyed on
email. -/
def get_patient_by_email (fail : Bool) (st : DbState) (email : String) :
    Except Unit (Option PatientView) :=
  if fail then Except.ok none
  else
    match st.patients.find? (fun r => r.email == email) with
    | none => Except.ok none
    | some r => Except.ok (rowToPatientView r)

/-- Model of `SQLiteManager.update_patient`: the UPDATE sets every mutable column
from `.get` (absent keys become NULL, absent `allergies` becomes `[]`); a
missing `name` on a matched row violates NOT NULL, which is caught and
converted to `False`.  Returns `rowcount > 0`. -/
def update_patient (fail : Bool) (st : DbState) (pid : String) (d : PatientData)
    (now : String) : DbState × Except Unit Bool :=
  if fail then (st, Except.ok false)
  else
    match d.name with
    | none => (st, Except.ok false)
    | some n =>
      (⟨st.patients.map (fun r =>
          if r.id == pid then
            ⟨r.id, r.email, n, d.phone, d.date_of_birth, d.gender, d.address,
              d.emergency_contact, d.blood_type, jsonDumps (d.allergies.getD []),
              r.created_at, now⟩
          else r), st.records⟩,
       Except.ok (st.patients.any (fun r => r.id == pid)))

/-- Model of `SQLiteManager.delete_patient`: a single `DELETE FROM patients`; the
schema declares no ON DELETE action and sqlite3 leaves foreign keys
unenforced, so `medical_records` rows are untouched.  Exceptions are caught
and converted to `False`. -/
def delete_patient (fail : Bool) (st : DbState) (pid : String) :
    DbState × Except Unit Bool :=
  if fail then (st, Except.ok false)
  else
    (⟨st.patients.filter (fun r => !(r.id == pid)), st.records⟩,
     Except.ok (st.patients.any (fun r => r.id == pid)))

/-- Model of `SQLiteManager.add_medical_record`: INSERT with serialized list fields;
a raised error (injected failure, NULL `record_type`, duplicate id) is
printed and re-raised (`raise`). -/
def add_medical_record (fail : Bool) (st : DbState) (pid : String) (d : RecordData)
    (newId now : String) : DbState × Except Unit String :=
  if fail || d.record_type.isNone || st.records.any (fun r => r.id == newId) then
    (st, Except.error ())
  else
    (⟨st.patients, st.records ++ [⟨newId, pid, d.record_type.getD "", d.modality,
        d.diagnosis, jsonDumps (d.symptoms.getD []), d.findings,
        jsonDumps (d.recommendations.getD []), jsonDumps (d.suggested_tests.getD []),
        d.image_path, d.confidence_score, d.doctor_notes, now, now⟩]⟩,
     Except.ok newId)

/-- Model of `SQLiteManager.get_medical_history`: newest first, capped; exceptions
(raised by `json.loads` included) are caught and `[]` returned. -/
def get_medical_history (fail : Bool) (st : DbState) (pid : String) (limit : Nat) :
    Except Unit (List RecordView) :=
  if fail then Except.ok []
  else
    match recordViewsAll
        ((sortByCreatedDesc (st.records.filter (fun r => r.patient_id == pid))).take limit) with
    | some vs => Except.ok vs
    | none => Except.ok []

/-- Model of `SQLiteManager.get_medical_record`: exceptions are caught and `None`
returned. -/
def get_medical_record (fail : Bool) (st : DbState) (rid : String) :
    Except Unit (Option RecordView) :=
  if fail then Except.ok none
  else
    match st.records.find? (fun r => r.id == rid) with
    | none => Except.ok none
    | some r => Except.ok (rowToRecordView r)

/-- Model of `SQLiteManager.update_medical_record`: the UPDATE sets diagnosis,
symptoms, findings, recommendations, suggested_tests, doctor_notes and
updated_at from `.get` (absent keys become NULL / `[]`); record_type,
modality, image_path, confidence_score and created_at are not in the SET
list.  Returns `rowcount > 0`; exceptions convert to `False`. -/
def update_medical_record (fail : Bool) (st : DbState) (rid : String)
    (d : RecordData) (now : String) : DbState × Except Unit Bool :=
  if fail then (st, Except.ok false)
  else
    (⟨st.patients, st.records.map (fun r =>
        if r.id == rid then
          ⟨r.id, r.patient_id, r.record_type, r.modality, d.diagnosis,
            jsonDumps (d.symptoms.getD []), d.findings,
            jsonDumps (d.recommendations.getD []),
            jsonDumps (d.suggested_tests.getD []), r.image_path,
            r.confidence_score, d.doctor_notes, r.created_at, now⟩
        else r)⟩,
     Except.ok (st.records.any (fun r => r.id == rid)))

/-- Model of `SQLiteManager.delete_medical_record`: exceptions convert to `False`. -/
def delete_medical_record (fail : Bool) (st : DbState) (rid : String) :
    DbState × Except Unit Bool :=
  if fail then (st, Except.ok false)
  else
    (⟨st.patients, st.records.filter (fun r => !(r.id == rid))⟩,
     Except.ok (st.records.any (fun r => r.id == rid)))

/-- Model of `SQLiteManager.search_patients`: `LIKE '%q%'` over name, email, phone,
capped at `limit`; exceptions convert to `[]`. -/
def search_patients (fail : Bool) (st : DbState) (q : String) (limit : Nat) :
    Except Unit (List PatientView) :=
  if fail then Except.ok []
  else
    match patientViewsAll
        ((st.patients.filter (fun r =>
          containsCI r.name q || containsCI r.email q || likeOpt r.phone q)).take limit) with
    | some vs => Except.ok vs
    | none => Except.ok []

/-- Model of `SQLiteManager.get_patient_statistics`: three aggregate queries; the
30-day window is `created_at >= cutoff`.  Exceptions convert to the empty
dict, modelled as `none`. -/
def get_patient_statistics (fail : Bool) (st : DbState) (pid : String)
    (cutoff now : String) : Except Unit (Option Stats) :=
  if fail then Except.ok none
  else
    let mine := st.records.filter (fun r => r.patient_id == pid)
    Except.ok (some ⟨mine.length, groupByType mine,
      (mine.filter (fun r => decide (r.created_at ≥ cutoff))).length, now⟩)

/-- Model of `SQLiteManager.get_condition_history`: diagnosis `LIKE '%cond%'`, newest
first; exceptions convert to `[]`. -/
def get_condition_history (fail : Bool) (st : DbState) (pid : String)
    (cond : String) : Except Unit (List RecordView) :=
  if fail then Except.ok []
  else
    match recordViewsAll
        (sortByCreatedDesc (st.records.filter (fun r =>
          r.patient_id == pid && likeOpt r.diagnosis cond))) with
    | some vs => Except.ok vs
    | none => Except.ok []

end SQLiteManager

namespace PostgresManager

/-- Read-side normalization in the postgres backend:
`record[k] = record[k] if record[k] else []`.  The JSONB column was written
from `json.dumps` text; asyncpg returns json/jsonb column values as text
unless a type codec is registered, and this repository registers none, so a
non-empty stored value reaches the caller as the raw text, not a list. -/
def jsonbPassthrough (s : String) : Value :=
  if s == "" then Value.list [] else Value.str s

/-- Build the patient dict from a row (no decoding; total). -/
def rowToPatientView (r : PatientRow) : PatientView :=
  ⟨r.id, r.email, r.name, r.phone, r.date_of_birth, r.gender, r.address,
    r.emergency_contact, r.blood_type, jsonbPassthrough r.allergies,
    r.created_at, r.updated_at⟩

/-- Build the medical-record dict from a row (no decoding; total). -/
def rowToRecordView (r : MedicalRecordRow) : RecordView :=
  ⟨r.id, r.patient_id, r.record_type, r.modality, r.diagnosis,
    jsonbPassthrough r.symptoms, r.findings, jsonbPassthrough r.recommendations,
    jsonbPassthrough r.suggested_tests, r.image_path, r.confidence_score,
    r.doctor_notes, r.created_at, r.updated_at⟩

/-- Model of `PostgresManager.create_patient`: the source passes the twelve
INSERT parameters as a single tuple to asyncpg's varargs `execute`
(postgres_manager.py:118-136), which raises InterfaceError on every call
before any SQL runs; the `except` block prints and re-raises, so the
operation always fails with no row inserted, whatever the inputs. -/
def create_patient (_fail : Bool) (st : DbState) (_d : PatientData)
    (_newId _now : String) : DbState × Except Unit String :=
  (st, Except.error ())

/-- Model of `PostgresManager.get_patient`: exceptions are caught and `None`
returned. -/
def get_patient (fail : Bool) (st : DbState) (pid : String) :
    Except Unit (Option PatientView) :=
  if fail then Except.ok none
  else
    match st.patients.find? (fun r => r.id == pid) with
    | none => Except.ok none
    | some r => Except.ok (some (rowToPatientView r))

/-- Model of `PostgresManager.get_patient_by_email`. -/
def get_patient_by_email (fail : Bool) (st : DbState) (email : String) :
    Except Unit (Option PatientView) :=
  if fail then Except.ok none
  else
    match st.patients.find? (fun r => r.email == email) with
    | none => Except.ok none
    | some r => Except.ok (some (rowToPatientView r))

/-- Model of `PostgresManager.update_patient`: the source passes the ten
UPDATE parameters as a single tuple to asyncpg's varargs `execute`
(postgres_manager.py:182-198), which raises InterfaceError on every call;
the `except` block catches it and returns `False`, so no call ever changes
a row or refreshes a timestamp. -/
def update_patient (_fail : Bool) (st : DbState) (_pid : String)
    (_d : PatientData) (_now : String) : DbState × Except Unit Bool :=
  (st, Except.ok false)

/-- Model of `PostgresManager.delete_patient`: `DELETE FROM patients`; the schema
declares `ON DELETE CASCADE` on `medical_records.patient_id`, so the
database removes the owned records in the same statement. -/
def delete_patient (fail : Bool) (st : DbState) (pid : String) :
    DbState × Except Unit Bool :=
  if fail then (st, Except.ok false)
  else
    (⟨st.patients.filter (fun r => !(r.id == pid)),
      st.records.filter (fun r => !(r.patient_id == pid))⟩,
     Except.ok (st.patients.any (fun r => r.id == pid)))

/-- Model of `PostgresManager.add_medical_record`: the source passes the
fourteen INSERT parameters as a single tuple to asyncpg's varargs `execute`
(postgres_manager.py:224-243), which raises InterfaceError on every call;
the `except` block prints and re-raises, so no record is ever inserted
through this backend. -/
def add_medical_record (_fail : Bool) (st : DbState) (_pid : String)
    (_d : RecordData) (_newId _now : String) : DbState × Except Unit String :=
  (st, Except.error ())

/-- Model of `PostgresManager.get_medical_history`: newest first, capped; exceptions
convert to `[]`. -/
def get_medical_history (fail : Bool) (st : DbState) (pid : String) (limit : Nat) :
    Except Unit (List RecordView) :=
  if fail then Except.ok []
  else
    Except.ok
      (((sortByCreatedDesc (st.records.filter (fun r => r.patient_id == pid))).take
        limit).map rowToRecordView)

/-- Model of `PostgresManager.get_medical_record`: exceptions convert to `None`. -/
def get_medical_record (fail : Bool) (st : DbState) (rid : String) :
    Except Unit (Option RecordView) :=
  if fail then Except.ok none
  else
    match st.records.find? (fun r => r.id == rid) with
    | none => Except.ok none
    | some r => Except.ok (some (rowToRecordView r))

/-- Model of `PostgresManager.update_medical_record`: the source passes the
eight UPDATE parameters as a single tuple to asyncpg's varargs `execute`
(postgres_manager.py:300-314), which raises InterfaceError on every call;
the `except` block catches it and returns `False` with the row untouched. -/
def update_medical_record (_fail : Bool) (st : DbState) (_rid : String)
    (_d : RecordData) (_now : String) : DbState × Except Unit Bool :=
  (st, Except.ok false)

/-- Model of `PostgresManager.delete_medical_record`: exceptions convert to
`False`. -/
def delete_medical_record (fail : Bool) (st : DbState) (rid : String) :
    DbState × Except Unit Bool :=
  if fail then (st, Except.ok false)
  else
    (⟨st.patients, st.records.filter (fun r => !(r.id == rid))⟩,
     Except.ok (st.records.any (fun r => r.id == rid)))

/-- Model of `PostgresManager.search_patients`: `ILIKE '%q%'` over name, email,
phone, capped; exceptions convert to `[]`. -/
def search_patients (fail : Bool) (st : DbState) (q : String) (limit : Nat) :
    Except Unit (List PatientView) :=
  if fail then Except.ok []
  else
    Except.ok
      (((st.patients.filter (fun r =>
        containsCI r.name q || containsCI r.email q || likeOpt r.phone q)).take
        limit).map rowToPatientView)

/-- Model of `PostgresManager.get_patient_statistics`: exceptions convert to the
empty dict, modelled as `none`. -/
def get_patient_statistics (fail : Bool) (st : DbState) (pid : String)
    (cutoff now : String) : Except Unit (Option Stats) :=
  if fail then Except.ok none
  else
    let mine := st.records.filter (fun r => r.patient_id == pid)
    Except.ok (some ⟨mine.length, groupByType mine,
      (mine.filter (fun r => decide (r.created_at ≥ cutoff))).length, now⟩)

/-- Model of `PostgresManager.get_condition_history`: diagnosis `ILIKE '%cond%'`,
newest first; exceptions convert to `[]`. -/
def get_condition_history (fail : Bool) (st : DbState) (pid : String)
    (cond : String) : Except Unit (List RecordView) :=
  if fail then Except.ok []
  else
    Except.ok
      ((sortByCreatedDesc (st.records.filter (fun r =>
        r.patient_id == pid && likeOpt r.diagnosis cond))).map rowToRecordView)

end PostgresManager

/-! ### The store interface: the two implementations behind one contract -/

/-- Which concrete `DatabaseManager` implementation is active. -/
inductive Backend where
  | sqlite
  | postgres
deriving DecidableEq, Repr

namespace DatabaseManager

def create_patient : Backend → Bool → DbState → PatientData → String → String →
    DbState × Except Unit String
  | Backend.sqlite => SQLiteManager.create_patient
  | Backend.postgres => PostgresManager.create_patient

def get_patient : Backend → Bool → DbState → String →
    Except Unit (Option PatientView)
  | Backend.sqlite => SQLiteManager.get_patient
  | Backend.postgres => PostgresManager.get_patient

def get_patient_by_email : Backend → Bool → DbState → String →
    Except Unit (Option PatientView)
  | Backend.sqlite => SQLiteManager.get_patient_by_email
  | Backend.postgres => PostgresManager.get_patient_by_email

def update_patient : Backend → Bool → DbState → String → PatientData → String →
    DbState × Except Unit Bool
  | Backend.sqlite => SQLiteManager.update_patient
  | Backend.postgres => PostgresManager.update_patient

def delete_patient : Backend → Bool → DbState → String →
    DbState × Except Unit Bool
  | Backend.sqlite => SQLiteManager.delete_patient
  | Backend.postgres => PostgresManager.delete_patient

def add_medical_record : Backend → Bool → DbState → String → RecordData →
    String → String → DbState × Except Unit String
  | Backend.sqlite => SQLiteManager.add_medical_record
  | Backend.postgres => PostgresManager.add_medical_record

def get_medical_record : Backend → Bool → DbState → String →
    Except Unit (Option RecordView)
  | Backend.sqlite => SQLiteManager.get_medical_record
  | Backend.postgres => PostgresManager.get_medical_record

def update_medical_record : Backend → Bool → DbState → String → RecordData →
    String → DbState × Except Unit Bool
  | Backend.sqlite => SQLiteManager.update_medical_record
  | Backend.postgres => PostgresManager.update_medical_record

end DatabaseManager

/-! ### Domain services -/

/-- The failure surfaced by a domain-service operation, keyed by the message
the code raises: `ValueError("Missing required field: f")` (the spec's
ValidationError), `ValueError("... already exists")` (the spec's
ConflictError), `ValueError("... not found")` (NotFoundError), a store-level
exception re-wrapped by the outer handler (StorageError), and the
`UnboundLocalError` the medical-record creation handler hits when its
`except` block reads `image_path` before the name was bound. -/
inductive ServiceError where
  | missingField : String → ServiceError
  | alreadyExists : String → ServiceError
  | notFound : String → ServiceError
  | storageFailure : ServiceError
  | unboundLocalError : ServiceError
deriving DecidableEq, Repr

namespace PatientService

/-- Model of `PatientService.create_patient`: validate required fields, reject an
email that already resolves to a patient, insert, then re-read and return
the canonical row.  Every raised error is re-wrapped by the outer handler
(`Exception("Failed to create patient: ...")`), preserving its message. -/
def create_patient (b : Backend) (st : DbState) (d : PatientData)
    (newId now : String) : DbState × Except ServiceError (Option PatientView) :=
  if optFalsy d.email then (st, Except.error (ServiceError.missingField "email"))
  else if optFalsy d.name then (st, Except.error (ServiceError.missingField "name"))
  else
    match DatabaseManager.get_patient_by_email b false st (d.email.getD "") with
    | Except.error _ => (st, Except.error ServiceError.storageFailure)
    | Except.ok (some _) =>
      (st, Except.error (ServiceError.alreadyExists (d.email.getD "")))
    | Except.ok none =>
      match DatabaseManager.create_patient b false st d newId now with
      | (st2, Except.error _) => (st2, Except.error ServiceError.storageFailure)
      | (st2, Except.ok pid) =>
        match DatabaseManager.get_patient b false st2 pid with
        | Except.error _ => (st2, Except.error ServiceError.storageFailure)
        | Except.ok v => (st2, Except.ok v)

/-- Model of `PatientService.search_patients`, parametric in the store's search call
(`self.db.search_patients`): queries that are empty or shorter than two
characters after stripping return `[]` without invoking the store; otherwise
the stripped query is forwarded. -/
def search_patients (dbSearch : String → Nat → List PatientView)
    (query : String) (limit : Nat) : List PatientView :=
  if query == "" || (stripStr query).length < 2 then []
  else dbSearch (stripStr query) limit

end PatientService

/-! ### Medical records service: image lifecycle -/

/-- An uploaded image file; only the filename extension chosen by
`os.path.splitext` matters to the path the service writes. -/
structure ImageFile where
  ext : String
deriving DecidableEq, Repr

/-- Observable filesystem and database effects of a service call, in
execution order. -/
inductive Event where
  | imageSaved : String → Event
  | insertAttempt : Event
  | insertOk : String → Event
  | imageRemoved : String → Event
deriving DecidableEq, Repr

namespace MedicalRecordsService

def upload_dir : String := "uploads/medical_images"

/-- The path `_save_medical_image` writes:
`uploads/medical_images/{patient_id}/{modality}_{timestamp}{ext}`. -/
def savedImagePath (pid modality timestamp ext : String) : String :=
  upload_dir ++ "/" ++ pid ++ "/" ++ modality ++ "_" ++ timestamp ++ ext

/-- Write a file: the path becomes present. -/
def fsWrite (fs : List String) (path : String) : List String :=
  if path ∈ fs then fs else fs ++ [path]

/-- Model of `os.remove`: the path becomes absent. -/
def fsRemove (fs : List String) (path : String) : List String :=
  fs.filter (fun p => !(p == path))

/-- Model of `MedicalRecordsService.create_medical_record`: validate required fields
(`record_type`, `modality`); if an image accompanies the request, save it
under the per-patient, modality-tagged path *before* the insert; insert;
re-read and return the canonical record.  On a raised error the `except`
block removes the written image if `image_path` names an existing file — but
when validation itself raised, `image_path` was never bound and the handler
dies with `UnboundLocalError` (no image had been written). -/
def create_medical_record (b : Backend) (insertFail : Bool) (st : DbState)
    (fs : List String) (pid : String) (d : RecordData) (image : Option ImageFile)
    (newId timestamp now : String) :
    DbState × List String × Except ServiceError (Option RecordView) × List Event :=
  if optFalsy d.record_type then
    (st, fs, Except.error ServiceError.unboundLocalError, [])
  else if optFalsy d.modality then
    (st, fs, Except.error ServiceError.unboundLocalError, [])
  else
    match image with
    | none =>
      match DatabaseManager.add_medical_record b insertFail st pid d newId now with
      | (st2, Except.error _) =>
        (st2, fs, Except.error ServiceError.storageFailure, [Event.insertAttempt])
      | (st2, Except.ok rid) =>
        match DatabaseManager.get_medical_record b false st2 rid with
        | Except.error _ =>
          (st2, fs, Except.error ServiceError.storageFailure,
            [Event.insertAttempt, Event.insertOk rid])
        | Except.ok v =>
          (st2, fs, Except.ok v, [Event.insertAttempt, Event.insertOk rid])
    | some img =>
      let path := savedImagePath pid (d.modality.getD "") timestamp img.ext
      let fs2 := fsWrite fs path
      let d2 : RecordData :=
        ⟨d.record_type, d.modality, d.diagnosis, d.symptoms, d.findings,
          d.recommendations, d.suggested_tests, some path, d.confidence_score,
          d.doctor_notes⟩
      match DatabaseManager.add_medical_record b insertFail st pid d2 newId now with
      | (st2, Except.error _) =>
        (st2, fsRemove fs2 path, Except.error ServiceError.storageFailure,
          [Event.imageSaved path, Event.insertAttempt, Event.imageRemoved path])
      | (st2, Except.ok rid) =>
        match DatabaseManager.get_medical_record b false st2 rid with
        | Except.error _ =>
          (st2, fsRemove fs2 path, Except.error ServiceError.storageFailure,
            [Event.imageSaved path, Event.insertAttempt, Event.insertOk rid,
              Event.imageRemoved path])
        | Except.ok v =>
          (st2, fs2, Except.ok v,
            [Event.imageSaved path, Event.insertAttempt, Event.insertOk rid])

/-- Model of `MedicalRecordsService.update_medical_record`: existence check, store
update, re-read. -/
def update_medical_record (b : Backend) (fail : Bool) (st : DbState)
    (rid : String) (d : RecordData) (now : String) :
    DbState × Except ServiceError (Option RecordView) :=
  match DatabaseManager.get_medical_record b false st rid with
  | Except.error _ => (st, Except.error ServiceError.storageFailure)
  | Except.ok none => (st, Except.error (ServiceError.notFound rid))
  | Except.ok (some _) =>
    match DatabaseManager.update_medical_record b fail st rid d now with
    | (st2, Except.error _) => (st2, Except.error ServiceError.storageFailure)
    | (st2, Except.ok false) => (st2, Except.error ServiceError.storageFailure)
    | (st2, Except.ok true) =>
      match DatabaseManager.get_medical_record b false st2 rid with
      | Except.error _ => (st2, Except.error ServiceError.storageFailure)
      | Except.ok v => (st2, Except.ok v)

end MedicalRecordsService

/-! ### Request models (`backend/models/patient_models.py`) -/

/-- The `RecordType` enumeration values. -/
def recordTypeValues : List String :=
  ["xray", "ct_2d", "ct_3d", "mri_2d", "mri_3d", "ultrasound", "lab_result",
    "consultation", "prescription", "surgery"]

/-- The `Modality` enumeration values. -/
def modalityValues : List String :=
  ["xray", "ct", "mri", "ultrasound", "lab", "clinical"]

/-- Model of `Field(None, ge=0.0, le=1.0)` on `confidence_score`: a present value
must lie in the closed unit interval. -/
def confidenceInRange : Option ℚ → Bool
  | none => true
  | some c => decide (0 ≤ c) && decide (c ≤ 1)

/-- The raw request body for medical-record creation/update, before
model validation. -/
structure RawRecordInput where
  record_type : Option String
  modality : Option String
  diagnosis : Option String
  symptoms : Option (List String)
  findings : Option String
  recommendations : Option (List String)
  suggested_tests : Option (List String)
  confidence_score : Option ℚ
  doctor_notes : Option String
deriving DecidableEq, Repr

namespace MedicalRecordCreate

/-- Pydantic validation of `MedicalRecordCreate` (from `MedicalRecordBase`):
`record_type` and `modality` are required enum members, `diagnosis` is
capped at 500 characters, `confidence_score` must lie in `[0, 1]` when
present, and the list fields default to `[]`.  FastAPI runs this before the
handler body; an error is returned to the client as a 422 and no service or
store code executes. -/
def validate (raw : RawRecordInput) : Except String RecordData :=
  match raw.record_type with
  | none => Except.error "record_type required"
  | some rt =>
    if !(recordTypeValues.contains rt) then Except.error "record_type invalid"
    else
      match raw.modality with
      | none => Except.error "modality required"
      | some m =>
        if !(modalityValues.contains m) then Except.error "modality invalid"
        else if !((raw.diagnosis.getD "").length ≤ 500) then
          Except.error "diagnosis too long"
        else if !(confidenceInRange raw.confidence_score) then
          Except.error "confidence_score out of range"
        else
          Except.ok ⟨some rt, some m, raw.diagnosis, some (raw.symptoms.getD []),
            raw.findings, some (raw.recommendations.getD []),
            some (raw.suggested_tests.getD []), none, raw.confidence_score,
            raw.doctor_notes⟩

end MedicalRecordCreate

namespace MedicalRecordUpdate

/-- Pydantic validation of `MedicalRecordUpdate`: every field optional,
`diagnosis` capped at 500, `confidence_score` bounded in `[0, 1]` when
present.  The router then filters out the `None` values before calling the
service. -/
def validate (raw : RawRecordInput) : Except String RecordData :=
  if !((raw.diagnosis.getD "").length ≤ 500) then
    Except.error "diagnosis too long"
  else if !(confidenceInRange raw.confidence_score) then
    Except.error "confidence_score out of range"
  else
    Except.ok ⟨none, none, raw.diagnosis, raw.symptoms, raw.findings,
      raw.recommendations, raw.suggested_tests, none, raw.confidence_score,
      raw.doctor_notes⟩

end MedicalRecordUpdate

/-! ### Router endpoints (`backend/routers/patient_router.py`) -/

namespace PatientRouter

/-- Model of `POST /{patient_id}/medical-records`: FastAPI validates the body
against `MedicalRecordCreate`, the handler checks the patient exists, then
calls the service with no image file. -/
def create_medical_record (b : Backend) (insertFail : Bool) (st : DbState)
    (fs : List String) (pid : String) (raw : RawRecordInput)
    (newId timestamp now : String) :
    DbState × List String × Except String (Option RecordView) :=
  match MedicalRecordCreate.validate raw with
  | Except.error e => (st, fs, Except.error e)
  | Except.ok d =>
    match DatabaseManager.get_patient b false st pid with
    | Except.error _ => (st, fs, Except.error "Patient not found")
    | Except.ok none => (st, fs, Except.error "Patient not found")
    | Except.ok (some _) =>
      match MedicalRecordsService.create_medical_record b insertFail st fs pid d
          none newId timestamp now with
      | (st2, fs2, Except.error _, _) =>
        (st2, fs2, Except.error "Failed to create medical record")
      | (st2, fs2, Except.ok v, _) => (st2, fs2, Except.ok v)

/-- Model of `PUT /medical-records/{record_id}`: FastAPI validates the body against
`MedicalRecordUpdate`, then the handler calls the service. -/
def update_medical_record (b : Backend) (fail : Bool) (st : DbState)
    (rid : String) (raw : RawRecordInput) (now : String) :
    DbState × Except String (Option RecordView) :=
  match MedicalRecordUpdate.validate raw with
  | Except.error e => (st, Except.error e)
  | Except.ok d =>
    match MedicalRecordsService.update_medical_record b fail st rid d now with
    | (st2, Except.error _) => (st2, Except.error "Failed to update medical record")
    | (st2, Except.ok v) => (st2, Except.ok v)

end PatientRouter

/-! ### Backend selector (`backend/database/config.py`) -/

namespace DatabaseConfig

/-- A constructed, not-yet-connected store handle. -/
inductive Manager where
  | sqlite : String → Manager
  | postgres : String → Manager
deriving DecidableEq, Repr

/-- Model of `DatabaseConfig.get_database_manager`: reads `DATABASE_TYPE` (default
`sqlite`, lowercased).  For `postgres` without a truthy `DATABASE_URL` it
prints a warning and falls back to a default-path `SQLiteManager()`; for
`sqlite` it uses `SQLITE_DB_PATH` or the default; any other kind prints a
warning and falls back to the default.  The second component collects the
printed warning lines; the function is total, so no path raises. -/
def get_database_manager (env : String → Option String) :
    Manager × List String :=
  let db_type := lowerStr ((env "DATABASE_TYPE").getD "sqlite")
  if db_type == "postgres" then
    if (env "DATABASE_URL").getD "" == "" then
      (Manager.sqlite "maruthuvam_ai.db",
        ["Warning: DATABASE_URL not set, falling back to SQLite"])
    else (Manager.postgres ((env "DATABASE_URL").getD ""), [])
  else if db_type == "sqlite" then
    (Manager.sqlite ((env "SQLITE_DB_PATH").getD "maruthuvam_ai.db"), [])
  else
    (Manager.sqlite "maruthuvam_ai.db",
      ["Unknown database type: " ++ db_type ++ ", falling back to SQLite"])

end DatabaseConfig

/-! ### Admin moderation (`backend/services/admin_service.py`) -/

/-- A row of `content_flags`. -/
structure FlagRow where
  id : String
  content_type : String
  content_id : String
  reason : String
  status : String
  admin_notes : Option String
  timestamp : String
deriving DecidableEq, Repr

/-- A row of `moderation_actions`. -/
structure ActionRow where
  id : String
  admin_id : String
  admin_email : String
  target_type : String
  target_id : String
  action_type : String
  reason : Option String
  status : String
  timestamp : String
deriving DecidableEq, Repr

/-- The admin tables the moderation flow touches. -/
structure AdminState where
  flags : List FlagRow
  actions : List ActionRow
  system_logs : List String
deriving DecidableEq, Repr

/-- The instance attributes each manager class binds in `__init__`:
`SQLiteManager` sets `db_path` and `connection`; `PostgresManager` sets
`connection_string` and `pool`. -/
def managerAttrNames : Backend → List String
  | Backend.sqlite => ["db_path", "connection"]
  | Backend.postgres => ["connection_string", "pool"]

/-- Python `hasattr` over the modelled attribute set. -/
def pyHasattr (attrs : List String) (a : String) : Bool :=
  attrs.contains a

namespace AdminService

/-- Model of `AdminService._update_flag_status`: guarded by
`hasattr(self.admin_db.base_manager, 'db')`; inside the guard a raised SQL
error converts to `False`, otherwise the UPDATE lands and `True` is
returned.  When the guard fails the function falls off the end of the
`try` and implicitly returns `None`. -/
def update_flag_status (b : Backend) (sqlFail : Bool) (st : AdminState)
    (flagId status : String) (adminNotes : Option String) :
    AdminState × Option Bool :=
  if pyHasattr (managerAttrNames b) "db" then
    if sqlFail then (st, some false)
    else
      (⟨st.flags.map (fun f =>
          if f.id == flagId then
            ⟨f.id, f.content_type, f.content_id, f.reason, status, adminNotes,
              f.timestamp⟩
          else f), st.actions, st.system_logs⟩, some true)
  else (st, none)

/-- Model of `AdminService._store_moderation_action`: same `hasattr` guard and
`try/except` structure around the INSERT. -/
def store_moderation_action (b : Backend) (sqlFail : Bool) (st : AdminState)
    (a : ActionRow) : AdminState × Option Bool :=
  if pyHasattr (managerAttrNames b) "db" then
    if sqlFail then (st, some false)
    else (⟨st.flags, st.actions ++ [a], st.system_logs⟩, some true)
  else (st, none)

/-- Model of `AdminService.log_system_event` by way of
`AdminDatabaseManager.log_system_event`: works over the sqlite connection
grabbed in `AdminDatabaseManager.__init__`; for the postgres backend that
init found no `db`/`_db` attribute, left `self.db = None`, and the insert
raises and converts to `False`. -/
def log_system_event (b : Backend) (sqlFail : Bool) (st : AdminState)
    (message : String) : AdminState × Bool :=
  match b with
  | Backend.sqlite =>
    if sqlFail then (st, false)
    else (⟨st.flags, st.actions, st.system_logs ++ [message]⟩, true)
  | Backend.postgres => (st, false)

/-- Model of `AdminService.moderate_content`: update the flag status, then store the
moderation action record, logging and reporting `True` only when both
succeeded; `if not success: return False` after each step. -/
def moderate_content (b : Backend) (updFail storeFail logFail : Bool)
    (st : AdminState) (flagId adminId adminEmail action status : String)
    (reason adminNotes : Option String) (actionId ts : String) :
    AdminState × Bool :=
  match update_flag_status b updFail st flagId status adminNotes with
  | (st1, r1) =>
    if !(r1.getD false) then (st1, false)
    else
      match store_moderation_action b storeFail st1
          ⟨actionId, adminId, adminEmail, "content_flag", flagId, action, reason,
            status, ts⟩ with
      | (st2, r2) =>
        if r2.getD false then
          match log_system_event b logFail st2
              ("Content moderated: " ++ action ++ " on flag " ++ flagId) with
          | (st3, _) => (st3, true)
        else (st2, false)

end AdminService

/-! ### Properties the claims quantify over -/

/-- Every stored confidence score lies in the unit interval. -/
def recordsValid (st : DbState) : Prop :=
  ∀ r ∈ st.records, confidenceInRange r.confidence_score = true

/-- Every stored allergies column decodes (true of everything the store
itself ever writes, which is `json.dumps` output). -/
def wellFormedPatients (st : DbState) : Prop :=
  ∀ p ∈ st.patients, (decodeListField p.allergies).isSome = true

/-- The flag's status, wherever the flag occurs. -/
def flagStatusIs (st : AdminState) (flagId status : String) : Prop :=
  ∀ f ∈ st.flags, f.id = flagId → f.status = status

/-- Some moderation action targeting the flag is on record. -/
def actionRecordedFor (st : AdminState) (flagId : String) : Prop :=
  ∃ a ∈ st.actions, a.target_id = flagId ∧ a.target_type = "content_flag"

/-! ### Concrete fixtures used by the evaluation theorems -/

/-- A patient row as `create_patient` stores it. -/
def patientRow1 : PatientRow :=
  ⟨"p1", "a@x.com", "A", none, none, none, none, none, none, jsonDumps [],
    "t0", "t0"⟩

/-- A fully-populated patient row. -/
def patientRowB : PatientRow :=
  ⟨"p1", "a@x.com", "A", some "123", some "1990-01-01", some "male",
    some "addr", some "EC", some "O+", jsonDumps ["nuts"], "t0", "t0"⟩

/-- A medical-record row as `add_medical_record` stores it. -/
def recordRow1 : MedicalRecordRow :=
  ⟨"r1", "p1", "xray", some "xray", some "Atelectasis", jsonDumps ["a", "b"],
    none, jsonDumps [], jsonDumps [], none, none, none, "t1", "t1"⟩

/-- A store state holding one patient who owns one medical record. -/
def st1 : DbState := ⟨[patientRow1], [recordRow1]⟩

/-- Model of `record_data` for a record whose symptoms are `["a", "b"]`. -/
def recordData1 : RecordData :=
  ⟨some "xray", some "xray", none, some ["a", "b"], none, none, none, none,
    none, none⟩

/-- Model of `patient_data` supplying only a name, as the router produces for
`update_patient(id, {name: "X"})` after filtering out `None` values. -/
def updNameOnly : PatientData :=
  ⟨none, some "X", none, none, none, none, none, none, none⟩

/-- Valid `patient_data` for a creation call. -/
def patientData1 : PatientData :=
  ⟨some "a@x.com", some "A", none, none, none, none, none, none, none⟩

/-- A raw request body whose confidence score is 1.5. -/
def rawRecordBad : RawRecordInput :=
  ⟨some "xray", some "xray", none, none, none, none, none, some (mkRat 3 2), none⟩

/-- Model of `record_data` with the required `record_type` missing. -/
def recordDataNoType : RecordData :=
  ⟨none, some "xray", none, none, none, none, none, none, none, none⟩

/-- A patient view used as a canned non-empty store answer. -/
def patientView1 : PatientView :=
  ⟨"p1", "a@x.com", "A", none, none, none, none, none, none, Value.list [],
    "t0", "t0"⟩

end Maruthuvam

namespace Maruthuvam

/-! ## Theorems -/

/-- C1.  The spec requires `delete_patient` to cascade in both backends.
The postgres schema enforces `ON DELETE CASCADE`, but the sqlite backend
issues only `DELETE FROM patients` against a schema with no delete action
and unenforced foreign keys, while its caller
(`PatientService.delete_patient`) comments "this will cascade" and deletes
nothing further: after deleting a patient who owns a medical record, that
record is still stored and `get_medical_record` still returns it. -/
theorem delete_patient_sqlite_no_cascade :
    SQLiteManager.delete_patient false st1 "p1" = (⟨[], [recordRow1]⟩, Except.ok true) ∧
    SQLiteManager.get_medical_record false ⟨[], [recordRow1]⟩ "r1"
      = Except.ok (some ⟨"r1", "p1", "xray", some "xray", some "Atelectasis",
          Value.list ["a", "b"], none, Value.list [], Value.list [], none, none,
          none, "t1", "t1"⟩) ∧
    PostgresManager.delete_patient false st1 "p1" = (⟨[], []⟩, Except.ok true) ∧
    PostgresManager.get_medical_record false ⟨[], []⟩ "r1" = Except.ok none := by
  refine ⟨by decide, by decide, by decide, by decide⟩

/-- C2.  A record created with `symptoms=["a","b"]` round-trips through the
sqlite backend (`json.dumps` on write, `json.loads` on read), but the
round-trip cannot be performed at all on the postgres backend: its
`add_medical_record` passes its parameters as one tuple to asyncpg's
varargs `execute`, so every creation raises and leaves the store unchanged
— and even for a row already present in the `medical_records` table, the
postgres read path hands back the serialized JSONB text unparsed
(`"[\"a\", \"b\"]"`, not the list), because unlike the sqlite branch it
never applies `json.loads`. -/
theorem symptoms_roundtrip_divergence :
    ((SQLiteManager.get_medical_record false
        (SQLiteManager.add_medical_record false ⟨[patientRow1], []⟩ "p1"
          recordData1 "r1" "t1").1 "r1").map
      (fun o => o.map (fun v => v.symptoms)))
      = Except.ok (some (Value.list ["a", "b"])) ∧
    (∀ (fail : Bool) (st : DbState) (pid newId now : String),
      PostgresManager.add_medical_record fail st pid recordData1 newId now
        = (st, Except.error ())) ∧
    ((PostgresManager.get_medical_record false ⟨[], [recordRow1]⟩ "r1").map
      (fun o => o.map (fun v => v.symptoms)))
      = Except.ok (some (Value.str "[\"a\", \"b\"]")) ∧
    Value.str "[\"a\", \"b\"]" ≠ Value.list ["a", "b"] := by
  refine ⟨by decide, fun fail st pid newId now => rfl, by decide, by decide⟩

/-- C3.  `update_patient` performs a partial update in neither backend.
Sqlite: the UPDATE's SET list draws every mutable column from `.get`, so
updating only the name of a fully-populated patient nulls phone, date of
birth, gender, address, emergency contact and blood type and resets
allergies to `[]` (the id, email and creation timestamp are untouched and
the update timestamp refreshed).  Postgres: the tuple-vs-varargs defect in
the asyncpg `execute` call makes every `update_patient` call raise and
return `False`, so nothing — supplied fields and update timestamp included
— is ever changed. -/
theorem update_patient_clobbers_unsupplied_fields :
    SQLiteManager.update_patient false ⟨[patientRowB], []⟩ "p1" updNameOnly "t2"
      = (⟨[⟨"p1", "a@x.com", "X", none, none, none, none, none, none,
            jsonDumps [], "t0", "t2"⟩], []⟩, Except.ok true) ∧
    (∀ (fail : Bool) (st : DbState) (pid : String) (d : PatientData)
      (now : String),
      PostgresManager.update_patient fail st pid d now = (st, Except.ok false)) ∧
    patientRowB.phone = some "123" ∧ patientRowB.allergies = jsonDumps ["nuts"] := by
  refine ⟨by decide, fun fail st pid d now => rfl, by decide, by decide⟩

/-- C4, counterexample.  A low-level failure inside `create_patient` or
`add_medical_record` is printed and then re-raised (`raise`) in both
backends, so the exception escapes the store API instead of being converted
to a declared failure value. -/
theorem create_patient_exception_escapes :
    (SQLiteManager.create_patient true ⟨[], []⟩ patientData1 "p1" "t0").2
      = Except.error () ∧
    (PostgresManager.create_patient true ⟨[], []⟩ patientData1 "p1" "t0").2
      = Except.error () ∧
    (SQLiteManager.add_medical_record true st1 "p1" recordData1 "r2" "t2").2
      = Except.error () ∧
    (PostgresManager.add_medical_record true st1 "p1" recordData1 "r2" "t2").2
      = Except.error () := by
  refine ⟨by decide, by decide, by decide, by decide⟩

/-- C4 (amended).  Under an injected low-level failure, every modelled store
operation of either backend except `create_patient` and
`add_medical_record` catches it at the operation boundary and returns the
interface's declared failure value (`False`, `None`, `[]` or the empty
dict) with the state unchanged; `create_patient` and `add_medical_record`
catch, log and re-raise, so their failure propagates to the caller. -/
theorem store_ops_failure_contract (st : DbState) (d : PatientData)
    (rd : RecordData) (pid rid eml q cond cutoff newId now : String)
    (limit : Nat) :
    SQLiteManager.get_patient true st pid = Except.ok none ∧
    SQLiteManager.get_patient_by_email true st eml = Except.ok none ∧
    SQLiteManager.update_patient true st pid d now = (st, Except.ok false) ∧
    SQLiteManager.delete_patient true st pid = (st, Except.ok false) ∧
    SQLiteManager.get_medical_history true st pid limit = Except.ok [] ∧
    SQLiteManager.get_medical_record true st rid = Except.ok none ∧
    SQLiteManager.update_medical_record true st rid rd now = (st, Except.ok false) ∧
    SQLiteManager.delete_medical_record true st rid = (st, Except.ok false) ∧
    SQLiteManager.search_patients true st q limit = Except.ok [] ∧
    SQLiteManager.get_patient_statistics true st pid cutoff now = Except.ok none ∧
    SQLiteManager.get_condition_history true st pid cond = Except.ok [] ∧
    PostgresManager.get_patient true st pid = Except.ok none ∧
    PostgresManager.get_patient_by_email true st eml = Except.ok none ∧
    PostgresManager.update_patient true st pid d now = (st, Except.ok false) ∧
    PostgresManager.delete_patient true st pid = (st, Except.ok false) ∧
    PostgresManager.get_medical_history true st pid limit = Except.ok [] ∧
    PostgresManager.get_medical_record true st rid = Except.ok none ∧
    PostgresManager.update_medical_record true st rid rd now = (st, Except.ok false) ∧
    PostgresManager.delete_medical_record true st rid = (st, Except.ok false) ∧
    PostgresManager.search_patients true st q limit = Except.ok [] ∧
    PostgresManager.get_patient_statistics true st pid cutoff now = Except.ok none ∧
    PostgresManager.get_condition_history true st pid cond = Except.ok [] ∧
    (SQLiteManager.create_patient true st d newId now).2 = Except.error () ∧
    (PostgresManager.create_patient true st d newId now).2 = Except.error () ∧
    (SQLiteManager.add_medical_record true st pid rd newId now).2 = Except.error () ∧
    (PostgresManager.add_medical_record true st pid rd newId now).2 = Except.error () := by
  refine ⟨rfl, rfl, rfl, rfl, rfl, rfl, rfl, rfl, rfl, rfl, rfl, rfl, rfl, rfl,
    rfl, rfl, rfl, rfl, rfl, rfl, rfl, rfl, rfl, rfl, rfl, rfl⟩

/-- C5.  For every moderation request, either both steps landed and the
operation reports success, or it reports failure with the flag table and
the moderation-action table exactly as before — no status change without
its action record and no action record without its status change.  This
holds because the helpers guard on `hasattr(base_manager, 'db')`, an
attribute neither `SQLiteManager` (which binds `connection`) nor
`PostgresManager` (which binds `pool`) defines, so both helpers fall
through, return `None`, and `moderate_content` reports failure having
persisted nothing. -/
theorem moderate_content_both_or_neither (b : Backend)
    (updFail storeFail logFail : Bool) (st : AdminState)
    (flagId adminId adminEmail action status : String)
    (reason adminNotes : Option String) (actionId ts : String) :
    ((AdminService.moderate_content b updFail storeFail logFail st flagId adminId
        adminEmail action status reason adminNotes actionId ts).2 = true ∧
      flagStatusIs (AdminService.moderate_content b updFail storeFail logFail st
        flagId adminId adminEmail action status reason adminNotes actionId ts).1
        flagId status ∧
      actionRecordedFor (AdminService.moderate_content b updFail storeFail logFail
        st flagId adminId adminEmail action status reason adminNotes actionId ts).1
        flagId) ∨
    ((AdminService.moderate_content b updFail storeFail logFail st flagId adminId
        adminEmail action status reason adminNotes actionId ts).2 = false ∧
      (AdminService.moderate_content b updFail storeFail logFail st flagId adminId
        adminEmail action status reason adminNotes actionId ts).1.flags = st.flags ∧
      (AdminService.moderate_content b updFail storeFail logFail st flagId adminId
        adminEmail action status reason adminNotes actionId ts).1.actions
        = st.actions) := by
  have hdb : ∀ bk : Backend, pyHasattr (managerAttrNames bk) "db" = false := by
    intro bk; cases bk <;> decide
  right
  cases b <;>
    simp [AdminService.moderate_content, AdminService.update_flag_status, hdb]

/-- C8.  The backend selector never raises (it is a total function); when
the client/server kind is requested without a truthy connection url it
returns a default-path embedded backend and emits the warning line; an
unknown kind likewise falls back with a warning; the embedded kind yields
an embedded backend at the configured or default path. -/
theorem get_database_manager_fallback (env : String → Option String) :
    (lowerStr ((env "DATABASE_TYPE").getD "sqlite") = "postgres" →
      (env "DATABASE_URL").getD "" = "" →
      DatabaseConfig.get_database_manager env
        = (DatabaseConfig.Manager.sqlite "maruthuvam_ai.db",
            ["Warning: DATABASE_URL not set, falling back to SQLite"])) ∧
    (lowerStr ((env "DATABASE_TYPE").getD "sqlite") = "sqlite" →
      DatabaseConfig.get_database_manager env
        = (DatabaseConfig.Manager.sqlite
            ((env "SQLITE_DB_PATH").getD "maruthuvam_ai.db"), [])) ∧
    (lowerStr ((env "DATABASE_TYPE").getD "sqlite") ≠ "postgres" →
      lowerStr ((env "DATABASE_TYPE").getD "sqlite") ≠ "sqlite" →
      DatabaseConfig.get_database_manager env
        = (DatabaseConfig.Manager.sqlite "maruthuvam_ai.db",
            ["Unknown database type: "
              ++ lowerStr ((env "DATABASE_TYPE").getD "sqlite")
              ++ ", falling back to SQLite"])) := by
  refine ⟨fun h1 h2 => ?_, fun h1 => ?_, fun h1 h2 => ?_⟩
  · simp [DatabaseConfig.get_database_manager, h1, h2]
  · simp [DatabaseConfig.get_database_manager, h1]
  · simp [DatabaseConfig.get_database_manager, h1, h2]

/-- C8 witness: the three fallback paths at concrete environments. -/
theorem get_database_manager_fallback_witness :
    DatabaseConfig.get_database_manager
        (fun k => if k == "DATABASE_TYPE" then some "postgres" else none)
      = (DatabaseConfig.Manager.sqlite "maruthuvam_ai.db",
          ["Warning: DATABASE_URL not set, falling back to SQLite"]) ∧
    DatabaseConfig.get_database_manager (fun _ => none)
      = (DatabaseConfig.Manager.sqlite "maruthuvam_ai.db", []) ∧
    DatabaseConfig.get_database_manager
        (fun k => if k == "DATABASE_TYPE" then some "MySQL" else none)
      = (DatabaseConfig.Manager.sqlite "maruthuvam_ai.db",
          ["Unknown database type: mysql, falling back to SQLite"]) := by
  refine ⟨(get_database_manager_fallback _).1 (by decide) (by decide),
    (get_database_manager_fallback _).2.1 (by decide), ?_⟩
  have h := (get_database_manager_fallback
    (fun k => if k == "DATABASE_TYPE" then some "MySQL" else none)).2.2
    (by decide) (by decide)
  simpa using h

/-- C10.  A search query that is empty, or shorter than two characters once
stripped of surrounding whitespace, makes `PatientService.search_patients`
return `[]` regardless of what the store's search would answer — the store
is never consulted and no state is involved. -/
theorem search_patients_short_query_empty
    (dbSearch : String → Nat → List PatientView) (q : String) (limit : Nat)
    (h : q = "" ∨ (stripStr q).length < 2) :
    PatientService.search_patients dbSearch q limit = [] := by
  unfold PatientService.search_patients
  rcases h with h | h <;> simp [h]

/-- C10 witness: a one-letter query with a store that would answer
non-empty still yields `[]`. -/
theorem search_patients_short_query_empty_witness :
    PatientService.search_patients (fun _ _ => [patientView1]) " a " 20 = [] :=
  search_patients_short_query_empty (fun _ _ => [patientView1]) " a " 20
    (Or.inr (by decide))

/-- When some stored patient carries the email and every stored allergies
column decodes, `get_patient_by_email` answers with a patient, in both
backends. -/
theorem get_patient_by_email_found (b : Backend) (st : DbState) (e : String)
    (hwf : wellFormedPatients st) (hdup : ∃ p ∈ st.patients, p.email = e) :
    ∃ v, DatabaseManager.get_patient_by_email b false st e
      = Except.ok (some v) := by
  obtain ⟨p, hp, hpe⟩ := hdup
  have hfind : (st.patients.find? (fun r => r.email == e)).isSome := by
    rw [List.find?_isSome]
    exact ⟨p, hp, by simp [hpe]⟩
  obtain ⟨q, hq⟩ := Option.isSome_iff_exists.mp hfind
  have hqmem : q ∈ st.patients := List.mem_of_find?_eq_some hq
  cases b
  · have hqwf := hwf q hqmem
    obtain ⟨l, hl⟩ := Option.isSome_iff_exists.mp hqwf
    refine ⟨⟨q.id, q.email, q.name, q.phone, q.date_of_birth, q.gender, q.address,
      q.emergency_contact, q.blood_type, Value.list l, q.created_at,
      q.updated_at⟩, ?_⟩
    simp [DatabaseManager.get_patient_by_email,
      SQLiteManager.get_patient_by_email, hq, SQLiteManager.rowToPatientView, hl]
  · refine ⟨PostgresManager.rowToPatientView q, ?_⟩
    simp [DatabaseManager.get_patient_by_email,
      PostgresManager.get_patient_by_email, hq]

/-- C6.  A `create_patient` call that passes field validation but reuses the
email of a stored patient fails with the conflict error (the service's
"already exists" `ValueError`, the spec's ConflictError) before the store
insert runs, and the patient table — in particular its row count — is
unchanged. -/
theorem create_patient_duplicate_email_conflict (b : Backend) (st : DbState)
    (d : PatientData) (e newId now : String)
    (hwf : wellFormedPatients st) (hemail : d.email = some e) (he : e ≠ "")
    (hname : d.name.getD "" ≠ "")
    (hdup : ∃ p ∈ st.patients, p.email = e) :
    PatientService.create_patient b st d newId now
      = (st, Except.error (ServiceError.alreadyExists e)) ∧
    (PatientService.create_patient b st d newId now).1.patients.length
      = st.patients.length := by
  obtain ⟨v, hv⟩ := get_patient_by_email_found b st e hwf hdup
  have h1 : optFalsy d.email = false := by
    simp [optFalsy, hemail]
    exact he
  have h2 : optFalsy d.name = false := by
    simp [optFalsy]
    exact hname
  have hget : DatabaseManager.get_patient_by_email b false st (d.email.getD "")
      = Except.ok (some v) := by
    rw [hemail]
    exact hv
  have key : PatientService.create_patient b st d newId now
      = (st, Except.error (ServiceError.alreadyExists e)) := by
    unfold PatientService.create_patient
    rw [h1, h2]
    simp only [Bool.false_eq_true, if_false, hget, hemail, Option.getD_some]
    rw [hv]
  exact ⟨key, by rw [key]⟩

/-- C6 witness: the duplicate-email conflict at a concrete store state. -/
theorem create_patient_duplicate_email_conflict_witness :
    PatientService.create_patient Backend.sqlite ⟨[patientRow1], []⟩ patientData1
        "p2" "t3"
      = (⟨[patientRow1], []⟩, Except.error (ServiceError.alreadyExists "a@x.com")) :=
  (create_patient_duplicate_email_conflict Backend.sqlite ⟨[patientRow1], []⟩
    patientData1 "a@x.com" "p2" "t3" (by unfold wellFormedPatients; decide) rfl
    (by decide) (by decide)
    ⟨patientRow1, by decide, by decide⟩).1

/-- An injected failure makes `add_medical_record` re-raise with the state
untouched, in both backends. -/
theorem add_medical_record_fail_eq (b : Backend) (st : DbState) (pid : String)
    (d : RecordData) (newId now : String) :
    DatabaseManager.add_medical_record b true st pid d newId now
      = (st, Except.error ()) := by
  cases b <;> rfl

/-- Writing a fresh path and then removing it restores the filesystem. -/
theorem fsRemove_fsWrite_fresh (fs : List String) (path : String)
    (h : path ∉ fs) :
    MedicalRecordsService.fsRemove (MedicalRecordsService.fsWrite fs path) path
      = fs := by
  unfold MedicalRecordsService.fsWrite MedicalRecordsService.fsRemove
  rw [if_neg h, List.filter_append]
  have h1 : fs.filter (fun p => !(p == path)) = fs := by
    refine List.filter_eq_self.mpr (fun a ha => ?_)
    simp only [Bool.not_eq_eq_eq_not, Bool.not_true, beq_eq_false_iff_ne]
    exact fun hc => h (hc ▸ ha)
  rw [h1]
  simp

/-- C7.  With an image attached, the service computes the per-patient,
modality-tagged path, writes the file there, and only then attempts the
insert; when the insert fails, the `except` handler removes the
just-written file, so the filesystem is exactly as before and no orphan
remains.  When field validation fails, nothing was written, so no failure
path orphans a file. -/
theorem create_medical_record_image_cleanup :
    (∀ (b : Backend) (st : DbState) (fs : List String) (pid : String)
      (d : RecordData) (img : ImageFile) (newId timestamp now : String),
      optFalsy d.record_type = false → optFalsy d.modality = false →
      MedicalRecordsService.savedImagePath pid (d.modality.getD "") timestamp
        img.ext ∉ fs →
      MedicalRecordsService.create_medical_record b true st fs pid d (some img)
          newId timestamp now
        = (st, fs, Except.error ServiceError.storageFailure,
            [Event.imageSaved (MedicalRecordsService.savedImagePath pid
                (d.modality.getD "") timestamp img.ext),
              Event.insertAttempt,
              Event.imageRemoved (MedicalRecordsService.savedImagePath pid
                (d.modality.getD "") timestamp img.ext)])) ∧
    (∀ (b : Backend) (fail : Bool) (st : DbState) (fs : List String)
      (pid : String) (d : RecordData) (img : ImageFile)
      (newId timestamp now : String),
      optFalsy d.record_type = true →
      MedicalRecordsService.create_medical_record b fail st fs pid d (some img)
          newId timestamp now
        = (st, fs, Except.error ServiceError.unboundLocalError, [])) ∧
    (∀ pid modality timestamp ext : String,
      MedicalRecordsService.savedImagePath pid modality timestamp ext
        = "uploads/medical_images/" ++ pid ++ "/" ++ modality ++ "_"
          ++ timestamp ++ ext) := by
  refine ⟨?_, ?_, fun pid m ts ext => rfl⟩
  · intro b st fs pid d img newId timestamp now hrt hm hfresh
    unfold MedicalRecordsService.create_medical_record
    rw [hrt, hm]
    simp only [Bool.false_eq_true, if_false, add_medical_record_fail_eq,
      fsRemove_fsWrite_fresh _ _ hfresh]
  · intro b fail st fs pid d img newId timestamp now hrt
    unfold MedicalRecordsService.create_medical_record
    rw [hrt]
    simp

/-- C7 witness: a concrete insert failure with an attached image leaves the
(initially empty) filesystem empty, and a concrete validation failure
writes nothing. -/
theorem create_medical_record_image_cleanup_witness :
    MedicalRecordsService.create_medical_record Backend.sqlite true
        ⟨[patientRow1], []⟩ [] "p1" recordData1 (some ⟨".jpg"⟩) "r9" "ts1" "t9"
      = (⟨[patientRow1], []⟩, [], Except.error ServiceError.storageFailure,
          [Event.imageSaved (MedicalRecordsService.savedImagePath "p1" "xray"
              "ts1" ".jpg"),
            Event.insertAttempt,
            Event.imageRemoved (MedicalRecordsService.savedImagePath "p1" "xray"
              "ts1" ".jpg")]) ∧
    MedicalRecordsService.create_medical_record Backend.sqlite false
        ⟨[patientRow1], []⟩ [] "p1" recordDataNoType (some ⟨".jpg"⟩) "r9" "ts1"
        "t9"
      = (⟨[patientRow1], []⟩, [], Except.error ServiceError.unboundLocalError,
          []) :=
  ⟨create_medical_record_image_cleanup.1 Backend.sqlite ⟨[patientRow1], []⟩ []
      "p1" recordData1 ⟨".jpg"⟩ "r9" "ts1" "t9" (by decide) (by decide)
      (by decide),
    create_medical_record_image_cleanup.2.1 Backend.sqlite false
      ⟨[patientRow1], []⟩ [] "p1" recordDataNoType ⟨".jpg"⟩ "r9" "ts1" "t9"
      (by decide)⟩

/-- A body the create validator accepts had an in-range confidence score,
and the validated data carries exactly that score. -/
theorem validate_create_ok_confidence (raw : RawRecordInput) (d : RecordData)
    (h : MedicalRecordCreate.validate raw = Except.ok d) :
    confidenceInRange raw.confidence_score = true ∧
    d.confidence_score = raw.confidence_score := by
  unfold MedicalRecordCreate.validate at h
  repeat' split at h
  any_goals exact Except.noConfusion h
  injection h with h2
  subst h2
  simp_all

/-- Same for the update validator. -/
theorem validate_update_ok_confidence (raw : RawRecordInput) (d : RecordData)
    (h : MedicalRecordUpdate.validate raw = Except.ok d) :
    confidenceInRange raw.confidence_score = true ∧
    d.confidence_score = raw.confidence_score := by
  unfold MedicalRecordUpdate.validate at h
  repeat' split at h
  any_goals exact Except.noConfusion h
  injection h with h2
  subst h2
  simp_all

/-- Rows present after `add_medical_record` were already stored or carry the
inserted confidence score. -/
theorem add_medical_record_records_mem (b : Backend) (fail : Bool)
    (st : DbState) (pid : String) (d : RecordData) (newId now : String) :
    ∀ r ∈ (DatabaseManager.add_medical_record b fail st pid d newId now).1.records,
      r ∈ st.records ∨ r.confidence_score = d.confidence_score := by
  intro r hr
  cases b
  · simp only [DatabaseManager.add_medical_record] at hr
    unfold SQLiteManager.add_medical_record at hr
    split at hr
    · exact Or.inl hr
    · simp only [List.mem_append, List.mem_singleton] at hr
      rcases hr with hr | hr
      · exact Or.inl hr
      · right
        rw [hr]
  · simp only [DatabaseManager.add_medical_record] at hr
    exact Or.inl hr

/-- Rows present after `update_medical_record` carry a confidence score
already stored: the UPDATE's SET list does not include
`confidence_score`. -/
theorem update_medical_record_records_mem (b : Backend) (fail : Bool)
    (st : DbState) (rid : String) (d : RecordData) (now : String) :
    ∀ r2 ∈ (DatabaseManager.update_medical_record b fail st rid d now).1.records,
      ∃ r ∈ st.records, r2.confidence_score = r.confidence_score := by
  intro r2 hr
  cases b
  · simp only [DatabaseManager.update_medical_record] at hr
    unfold SQLiteManager.update_medical_record at hr
    split at hr
    · exact ⟨r2, hr, rfl⟩
    · simp only [List.mem_map] at hr
      obtain ⟨r, hrmem, hfr⟩ := hr
      refine ⟨r, hrmem, ?_⟩
      rw [← hfr]
      split <;> rfl
  · simp only [DatabaseManager.update_medical_record] at hr
    exact ⟨r2, hr, rfl⟩

/-- Restatement of `add_medical_record_records_mem` through an explicit
result equation, for use at match branches. -/
theorem add_records_mem_of_eq (b : Backend) (insF : Bool) (st : DbState)
    (pid : String) (X : RecordData) (newId now : String) (st2 : DbState)
    (res : Except Unit String)
    (heq : DatabaseManager.add_medical_record b insF st pid X newId now
      = (st2, res)) :
    ∀ r ∈ st2.records,
      r ∈ st.records ∨ r.confidence_score = X.confidence_score := by
  intro r hr
  exact add_medical_record_records_mem b insF st pid X newId now r
    (by rw [heq]; exact hr)

/-- Rows present after the record-creation service ran were already stored
or carry the request's confidence score. -/
theorem create_service_records_mem (b : Backend) (insF : Bool) (st : DbState)
    (fs : List String) (pid : String) (d : RecordData) (image : Option ImageFile)
    (newId timestamp now : String) :
    ∀ r ∈ (MedicalRecordsService.create_medical_record b insF st fs pid d image
        newId timestamp now).1.records,
      r ∈ st.records ∨ r.confidence_score = d.confidence_score := by
  simp only [MedicalRecordsService.create_medical_record]
  repeat' split
  all_goals intro r hr
  all_goals
    first
    | exact Or.inl hr
    | (rename_i uu heqadd
       exact add_records_mem_of_eq b insF st pid _ newId now _ _ heqadd r hr)
    | (rename_i pp heqadd xx ww heqget
       exact add_records_mem_of_eq b insF st pid _ newId now _ _ heqadd r hr)

/-- Restatement of `update_medical_record_records_mem` through an explicit
result equation. -/
theorem upd_records_mem_of_eq (b : Backend) (fail : Bool) (st : DbState)
    (rid : String) (d : RecordData) (now : String) (st2 : DbState)
    (res : Except Unit Bool)
    (heq : DatabaseManager.update_medical_record b fail st rid d now
      = (st2, res)) :
    ∀ r2 ∈ st2.records,
      ∃ r ∈ st.records, r2.confidence_score = r.confidence_score := by
  intro r2 hr
  exact update_medical_record_records_mem b fail st rid d now r2
    (by rw [heq]; exact hr)

/-- Rows present after the record-update service ran carry a previously
stored confidence score. -/
theorem update_service_records_mem (b : Backend) (fail : Bool) (st : DbState)
    (rid : String) (d : RecordData) (now : String) :
    ∀ r2 ∈ (MedicalRecordsService.update_medical_record b fail st rid d
        now).1.records,
      ∃ r ∈ st.records, r2.confidence_score = r.confidence_score := by
  simp only [MedicalRecordsService.update_medical_record]
  repeat' split
  all_goals intro r2 hr
  all_goals
    first
    | exact ⟨r2, hr, rfl⟩
    | (rename_i uu hequpd
       exact upd_records_mem_of_eq b fail st rid d now _ _ hequpd r2 hr)
    | (rename_i hequpd xx ww heqget
       exact upd_records_mem_of_eq b fail st rid d now _ _ hequpd r2 hr)

/-- The record-creation endpoint preserves the stored-confidence
invariant. -/
theorem router_create_records_valid (b : Backend) (insF : Bool) (st : DbState)
    (fs : List String) (pid : String) (raw : RawRecordInput)
    (newId timestamp now : String) (hst : recordsValid st) :
    recordsValid (PatientRouter.create_medical_record b insF st fs pid raw
      newId timestamp now).1 := by
  unfold PatientRouter.create_medical_record
  split
  · exact hst
  · rename_i dd hval
    split
    · exact hst
    · exact hst
    · rename_i pv hget
      split <;> rename_i st2 fs2 aa tr heq <;> intro r hr <;>
        rcases create_service_records_mem b insF st fs pid dd none newId
          timestamp now r (by rw [heq]; exact hr) with hmem | hconf <;>
        first
          | exact hst r hmem
          | (rw [hconf, (validate_create_ok_confidence raw dd hval).2]
             exact (validate_create_ok_confidence raw dd hval).1)

/-- The record-update endpoint preserves the stored-confidence invariant:
the UPDATE's SET list does not include `confidence_score`. -/
theorem router_update_records_valid (b : Backend) (fail : Bool) (st : DbState)
    (rid : String) (raw : RawRecordInput) (now : String)
    (hst : recordsValid st) :
    recordsValid (PatientRouter.update_medical_record b fail st rid raw
      now).1 := by
  unfold PatientRouter.update_medical_record
  split
  · exact hst
  · rename_i dd hval
    split <;> rename_i st2 aa heq <;> intro r2 hr <;>
      obtain ⟨r, hrmem, hc⟩ := update_service_records_mem b fail st rid dd now
        r2 (by rw [heq]; exact hr) <;>
      (rw [hc]; exact hst r hrmem)

/-- C9.  A present confidence score outside `[0, 1]` (such as 1.5) is
rejected by the Pydantic validation of `MedicalRecordCreate` and
`MedicalRecordUpdate` before the handler, the service or the store runs —
both endpoints return a validation error with database state and filesystem
untouched — and consequently both endpoints preserve the invariant that
every stored confidence score lies in `[0, 1]`. -/
theorem confidence_score_validation :
    (∀ (raw : RawRecordInput) (c : ℚ), raw.confidence_score = some c →
      (c < 0 ∨ 1 < c) →
      (MedicalRecordCreate.validate raw).isOk = false ∧
      (MedicalRecordUpdate.validate raw).isOk = false ∧
      (∀ (b : Backend) (insF : Bool) (st : DbState) (fs : List String)
        (pid newId timestamp now : String), ∃ e,
        PatientRouter.create_medical_record b insF st fs pid raw newId
          timestamp now = (st, fs, Except.error e)) ∧
      (∀ (b : Backend) (fail : Bool) (st : DbState) (rid now : String), ∃ e,
        PatientRouter.update_medical_record b fail st rid raw now
          = (st, Except.error e))) ∧
    (∀ (b : Backend) (insF : Bool) (st : DbState) (fs : List String)
      (pid : String) (raw : RawRecordInput) (newId timestamp now : String),
      recordsValid st →
      recordsValid (PatientRouter.create_medical_record b insF st fs pid raw
        newId timestamp now).1) ∧
    (∀ (b : Backend) (fail : Bool) (st : DbState) (rid : String)
      (raw : RawRecordInput) (now : String),
      recordsValid st →
      recordsValid (PatientRouter.update_medical_record b fail st rid raw
        now).1) := by
  refine ⟨?_, router_create_records_valid, router_update_records_valid⟩
  intro raw c hc hout
  have hcf : confidenceInRange raw.confidence_score = false := by
    rw [hc]
    rcases hout with h | h
    · have hn : ¬(0 : ℚ) ≤ c := not_le.mpr h
      simp [confidenceInRange, hn]
    · have hn : ¬c ≤ (1 : ℚ) := not_le.mpr h
      simp [confidenceInRange, hn]
  have hcre : (MedicalRecordCreate.validate raw).isOk = false := by
    cases hok : MedicalRecordCreate.validate raw with
    | error e => rfl
    | ok dd =>
      have := (validate_create_ok_confidence raw dd hok).1
      rw [this] at hcf
      exact absurd hcf (by simp)
  have hupd : (MedicalRecordUpdate.validate raw).isOk = false := by
    cases hok : MedicalRecordUpdate.validate raw with
    | error e => rfl
    | ok dd =>
      have := (validate_update_ok_confidence raw dd hok).1
      rw [this] at hcf
      exact absurd hcf (by simp)
  refine ⟨hcre, hupd, ?_, ?_⟩
  · intro b insF st fs pid newId timestamp now
    cases hok : MedicalRecordCreate.validate raw with
    | error e =>
      refine ⟨e, ?_⟩
      unfold PatientRouter.create_medical_record
      rw [hok]
    | ok dd =>
      rw [hok] at hcre
      exact absurd hcre (by simp [Except.isOk, Except.toBool])
  · intro b fail st rid now
    cases hok : MedicalRecordUpdate.validate raw with
    | error e =>
      refine ⟨e, ?_⟩
      unfold PatientRouter.update_medical_record
      rw [hok]
    | ok dd =>
      rw [hok] at hupd
      exact absurd hupd (by simp [Except.isOk, Except.toBool])

/-- C9 witness: confidence 3/2 is rejected by both validators at a concrete
request, and the create endpoint leaves a concrete valid store valid. -/
theorem confidence_score_validation_witness :
    (MedicalRecordCreate.validate rawRecordBad).isOk = false ∧
    (MedicalRecordUpdate.validate rawRecordBad).isOk = false ∧
    recordsValid (PatientRouter.create_medical_record Backend.sqlite false
      ⟨[patientRow1], []⟩ [] "p1" rawRecordBad "r1" "ts" "t1").1 := by
  have h := confidence_score_validation
  exact ⟨(h.1 rawRecordBad (mkRat 3 2) rfl (Or.inr (by decide))).1,
    (h.1 rawRecordBad (mkRat 3 2) rfl (Or.inr (by decide))).2.1,
    h.2.1 Backend.sqlite false ⟨[patientRow1], []⟩ [] "p1" rawRecordBad "r1"
      "ts" "t1" (by unfold recordsValid; decide)⟩

end Maruthuvam
